import Mathlib

/-
  Verification of the QUIC client binding layer (src/lib/index.ts).

  The TypeScript layer wraps an opaque native engine adapter (lib.node).
  We embed the wrapper classes (Connection, PartialStream, Stream) as Lean
  structures, the adapter as a behaviour record (Adapter) plus an explicit
  trace of adapter calls (AdapterCall), and each wrapper method as a pure
  function returning its result, the updated object state and the list of
  adapter calls it issued.  Host-supplied callbacks keep an explicit
  receiver parameter, so that the receiver the bridge binds with
  Function.prototype.apply is observable data.

  The TypeScript identifiers `initialize` / `initialized` are spelt
  `initialise` / `initialised` in this file.
-/

namespace NodeQuic

/-- Byte buffers (Uint8Array / Buffer) as lists of byte values. -/
abbrev Bytes := List Nat

/-- UTF-8 encoding of one code point, as byte values. -/
def utf8EncodeNat (c : Nat) : List Nat :=
  if c < 0x80 then [c]
  else if c < 0x800 then
    [0xC0 ||| (c >>> 6), 0x80 ||| (c &&& 0x3F)]
  else if c < 0x10000 then
    [0xE0 ||| (c >>> 12), 0x80 ||| ((c >>> 6) &&& 0x3F), 0x80 ||| (c &&& 0x3F)]
  else
    [0xF0 ||| (c >>> 18), 0x80 ||| ((c >>> 12) &&& 0x3F),
      0x80 ||| ((c >>> 6) &&& 0x3F), 0x80 ||| (c &&& 0x3F)]

/-- TextEncoder().encode: UTF-8 bytes of a string. -/
def encodeStr (s : String) : Bytes := (s.data.map Char.toNat).flatMap utf8EncodeNat

/-- A JavaScript Error value, identified by its message. -/
structure Error where
  message : String
deriving DecidableEq, Repr

/-- The error thrown by a second PartialStream initialisation (source: new Error with message "Already initialized!"). -/
def alreadyInitialisedError : Error := { message := "Already initialized!" }

/-- The error raised when the onStream handler returns without initialising (source message "Partial stream has not been initialized"). -/
def uninitialisedStreamError : Error := { message := "Partial stream has not been initialized" }

/-- Opaque failure surfaced by the native engine adapter. -/
def engineError : Error := { message := "EngineError" }

/-- Failure of an operation attempted after connection teardown. -/
def connectionClosedError : Error := { message := "ConnectionClosed" }

/-- Result of lib.stream_details: the stream's identity and 0-RTT flag. -/
structure StreamDetails where
  is0rtt : Bool
  id : Nat
deriving DecidableEq, Repr

/-- Modelled from the spec: the native engine's connection handle carries an
open/closed state ("once close completes, the Connection must reject further
createStream calls with a ConnectionClosed error"); the native adapter code is
not part of the TypeScript sources. -/
structure EngineConn where
  handle : Nat
  closed : Bool
deriving DecidableEq, Repr

/-- The Connection wrapper class: holds the opaque engine connection handle. -/
structure Connection where
  connection : EngineConn
deriving DecidableEq, Repr

/-- Behaviour of the native engine adapter (lib.node) for one call scenario:
handle generators, the pure stream_details query, and whether each fallible
operation succeeds or throws. -/
structure Adapter where
  connHandle : Nat
  newHandle : Nat → Nat
  freshStreamHandle : Nat → Nat
  details : Nat → StreamDetails
  initOk : Bool
  writeOk : Bool
  closeOk : Bool
  closeWriteOk : Bool

/-- A call made into the native engine adapter, with its arguments. -/
inductive AdapterCall where
  | initialiseStream (handle : Nat)
  | createStream (connHandle : Nat)
  | writeStream (handle : Nat) (packet : Bytes)
  | closeStream (handle : Nat) (errorCode : Nat)
  | closeWrite (handle : Nat)
  | closeConnection (connHandle : Nat) (errorCode : Nat) (reason : Option Bytes)
deriving DecidableEq, Repr

/-- The PartialStream wrapper class: connection, opaque engine handle,
write-closed flag and the initialised flag (source fields connection,
partialStream, writeClosed, initialized). -/
structure PartialStream where
  connection : Connection
  partialStream : Nat
  writeClosed : Bool
  initialised : Bool
deriving DecidableEq, Repr

/-- The PartialStream constructor: writeClosed := isUnidirectional, and the
initialized flag starts false (source field initialiser `initialized = false`). -/
def PartialStream.mkJs (connection : Connection) (partialStream : Nat)
    (isUnidirectional : Bool) : PartialStream :=
  { connection := connection
    partialStream := partialStream
    writeClosed := isUnidirectional
    initialised := false }

/-- The isInitialized getter. -/
def PartialStream.isInitialised (ps : PartialStream) : Bool := ps.initialised

/-- The writeIsClosed getter on PartialStream. -/
def PartialStream.writeIsClosed (ps : PartialStream) : Bool := ps.writeClosed

/-- The Stream wrapper class: connection, write-closed flag, opaque engine
handle and the details queried at construction. -/
structure Stream where
  connection : Connection
  writeClosed : Bool
  stream : Nat
  details : StreamDetails
deriving DecidableEq, Repr

/-- The Stream constructor: queries lib.stream_details (a pure query) and sets
writeClosed := isUnidirectional. -/
def Stream.mkJs (A : Adapter) (connection : Connection) (stream : Nat)
    (isUnidirectional : Bool) : Stream :=
  { details := A.details stream
    writeClosed := isUnidirectional
    connection := connection
    stream := stream }

/-- The writeIsClosed getter on Stream. -/
def Stream.writeIsClosed (s : Stream) : Bool := s.writeClosed

/-- The id getter on Stream. -/
def Stream.id (s : Stream) : Nat := s.details.id

/-- The is0rtt getter on Stream. -/
def Stream.is0rtt (s : Stream) : Bool := s.details.is0rtt

/-- The getConnection method on Stream. -/
def Stream.getConnection (s : Stream) : Connection := s.connection

/-- The StreamOptions record of host callbacks.  Each callback takes its
receiver (the JavaScript `this`) explicitly, so receiver binding is visible. -/
structure StreamOptions (α : Type) where
  onData : Stream → Bytes → α
  onClose : Stream → String → α
  onError : Stream → Error → α

/-- The empty no-op callback triple the bridge uses when force-closing an
uninitialised inbound stream. -/
def noopOptions : StreamOptions Unit :=
  { onClose := fun _ _ => ()
    onData := fun _ _ => ()
    onError := fun _ _ => () }

/-- An engine-emitted event on one stream. -/
inductive StreamEvent where
  | data (packet : Bytes)
  | close (reason : String)
  | error (e : Error)

/-- The callback wrapper registered with the adapter by initialise: maps each
engine event to the host-callback invocation the bridge performs. -/
abbrev StreamDispatcher (α : Type) := StreamEvent → α

/-- PartialStream.initialize from the source: throws Already initialized! if
the flag is set; otherwise calls lib.initialize_stream with wrappers that
apply each host callback with the receiver bound to fullStream, sets the
flag, constructs the Stream and returns it.  Returns (thrown-or-result,
updated PartialStream, adapter calls made). -/
def PartialStream.initialise (A : Adapter) (ps : PartialStream)
    (opts : StreamOptions α) :
    Except Error (Stream × StreamDispatcher α) × PartialStream × List AdapterCall :=
  if ps.initialised then
    (Except.error alreadyInitialisedError, ps, [])
  else if A.initOk then
    let streamHandle := A.newHandle ps.partialStream
    let ps' := { ps with initialised := true }
    let fullStream := Stream.mkJs A ps.connection streamHandle ps.writeClosed
    let dispatch : StreamDispatcher α := fun ev =>
      match ev with
      | StreamEvent.data packet => opts.onData fullStream packet
      | StreamEvent.close reason => opts.onClose fullStream reason
      | StreamEvent.error e => opts.onError fullStream e
    (Except.ok (fullStream, dispatch), ps', [AdapterCall.initialiseStream ps.partialStream])
  else
    (Except.error engineError, ps, [AdapterCall.initialiseStream ps.partialStream])

/-- Stream.write from the source: if packet.length > 0, await
lib.write_stream(this.stream, packet); otherwise do nothing.  The stream
object itself is not mutated. -/
def Stream.write (A : Adapter) (s : Stream) (packet : Bytes) :
    Except Error Unit × Stream × List AdapterCall :=
  if packet.length > 0 then
    ((if A.writeOk then Except.ok () else Except.error engineError), s,
      [AdapterCall.writeStream s.stream packet])
  else
    (Except.ok (), s, [])

/-- Stream.close from the source: await lib.close_stream(this.stream,
errorCode); the stream object is not mutated. -/
def Stream.close (A : Adapter) (s : Stream) (errorCode : Nat) :
    Except Error Unit × Stream × List AdapterCall :=
  ((if A.closeOk then Except.ok () else Except.error engineError), s,
    [AdapterCall.closeStream s.stream errorCode])

/-- Stream.closeWrite from the source: return immediately when writeClosed is
already true; otherwise await lib.close_write(this.stream) and only then set
writeClosed := true (so a throwing adapter call leaves the flag false). -/
def Stream.closeWrite (A : Adapter) (s : Stream) :
    Except Error Unit × Stream × List AdapterCall :=
  if s.writeClosed then
    (Except.ok (), s, [])
  else if A.closeWriteOk then
    (Except.ok (), { s with writeClosed := true }, [AdapterCall.closeWrite s.stream])
  else
    (Except.error engineError, s, [AdapterCall.closeWrite s.stream])

/-- Modelled from the spec: lib.create_stream / openStream on the native
engine returns a fresh stream handle or fails with ConnectionClosed once the
connection is closed; the native adapter code is not part of the TypeScript
sources. -/
def lib_create_stream (A : Adapter) (ec : EngineConn) : Except Error Nat :=
  if ec.closed then Except.error connectionClosedError
  else Except.ok (A.freshStreamHandle ec.handle)

/-- lib.close_connection: terminates the engine connection (marking it
closed, per the spec) and records the call with its arguments. -/
def lib_close_connection (ec : EngineConn) (errorCode : Nat) (reason : Option Bytes) :
    EngineConn × AdapterCall :=
  ({ ec with closed := true }, AdapterCall.closeConnection ec.handle errorCode reason)

/-- Connection.close from the source: fullReason := reason ?? empty; buffer is
the encoded reason when nonempty, else null; calls
lib.close_connection(conn, errorCode ?? 0, buffer). -/
def Connection.close (c : Connection) (errorCode : Option Nat) (reason : Option String) :
    Connection × List AdapterCall :=
  let fullReason := reason.getD ""
  let buffer : Option Bytes :=
    if fullReason.length > 0 then some (encodeStr fullReason) else none
  let p := lib_close_connection c.connection (errorCode.getD 0) buffer
  ({ connection := p.1 }, [p.2])

/-- Connection.createStream from the source: await lib.create_stream, then
new PartialStream(this, partialStream, false).initialize(options). -/
def Connection.createStream (A : Adapter) (c : Connection) (opts : StreamOptions α) :
    Except Error (Stream × StreamDispatcher α) × List AdapterCall :=
  match lib_create_stream A c.connection with
  | Except.error e => (Except.error e, [AdapterCall.createStream c.connection.handle])
  | Except.ok psHandle =>
    let r := PartialStream.initialise A (PartialStream.mkJs c psHandle false) opts
    (r.1, AdapterCall.createStream c.connection.handle :: r.2.2)

/-- Connection.getRemoteIp is a pure adapter query; not modelled further. -/
def Connection.getRemoteIp (c : Connection) : Nat := c.connection.handle

/-- The client-authentication pair of ConnectOptions; each field is optional
to model a field that may be absent at runtime. -/
structure ClientAuthentication where
  certificate : Option Bytes
  key : Option Bytes
deriving DecidableEq, Repr

/-- The ConnectOptions record: connection-level host callbacks (with the
receiver explicit) and the optional configuration fields. -/
structure ConnectOptions (α : Type) where
  hostname : String
  port : Nat
  onClose : Connection → String → α
  onError : Connection → Error → α
  onStream : Connection → PartialStream → α
  alpnProtocols : Option (List String)
  certificateAuthorities : Option (List Bytes)
  clientAuthentication : Option ClientAuthentication

/-- Outcome of one inbound-stream notification (handleNewStream).
hostNotified is the value of options.onStream.call(fullConnection, ps),
recording the receiver the bridge bound; result is what the notification
returns or throws to its caller; calls is the adapter-call trace;
forcedOptions / forcedStream record the forced no-op initialisation performed
when the host did not initialise (the forced Stream appears only here, never
in result). -/
structure NewStreamResult (α : Type) where
  hostNotified : α
  result : Except Error Unit
  calls : List AdapterCall
  forcedOptions : Option (StreamOptions Unit)
  forcedStream : Option Stream

/-- handleNewStream from the source: construct the PartialStream, invoke
options.onStream with receiver fullConnection, and if the PartialStream is
still uninitialised afterwards, initialise it with the no-op callbacks, close
the resulting stream (errorCode 0, failures swallowed by catch) and throw
the uninitialised-stream error.  hostInit models whether the host handler
called initialize (once, with hostOpts, without catching) before returning. -/
def handleNewStream (A : Adapter) (opts : ConnectOptions α) (fullConnection : Connection)
    (hostOpts : StreamOptions α) (hostInit : Bool)
    (rawPartialStream : Nat) (isUnidirectional : Bool) : NewStreamResult α :=
  let partialStream := PartialStream.mkJs fullConnection rawPartialStream isUnidirectional
  let hostNotified := opts.onStream fullConnection partialStream
  let autoClose : PartialStream → List AdapterCall → NewStreamResult α := fun ps calls =>
    let r := PartialStream.initialise A ps noopOptions
    match r.1 with
    | Except.ok sd =>
      let c := Stream.close A sd.1 0
      { hostNotified := hostNotified
        result := Except.error uninitialisedStreamError
        calls := calls ++ r.2.2 ++ c.2.2
        forcedOptions := some noopOptions
        forcedStream := some sd.1 }
    | Except.error e =>
      { hostNotified := hostNotified
        result := Except.error e
        calls := calls ++ r.2.2
        forcedOptions := some noopOptions
        forcedStream := none }
  if hostInit then
    let r := PartialStream.initialise A partialStream hostOpts
    match r.1 with
    | Except.error e =>
      { hostNotified := hostNotified
        result := Except.error e
        calls := r.2.2
        forcedOptions := none
        forcedStream := none }
    | Except.ok _ =>
      if r.2.1.isInitialised then
        { hostNotified := hostNotified
          result := Except.ok ()
          calls := r.2.2
          forcedOptions := none
          forcedStream := none }
      else autoClose r.2.1 r.2.2
  else
    if partialStream.isInitialised then
      { hostNotified := hostNotified
        result := Except.ok ()
        calls := []
        forcedOptions := none
        forcedStream := none }
    else autoClose partialStream []

/-- Result of rawConnect: the Connection handed to the host together with the
callback wrappers the bridge registered with lib.connect and the encoded
configuration the adapter received. -/
structure RawConnectResult (α : Type) where
  connection : Connection
  wrappedOnClose : String → α
  wrappedOnError : Error → α
  newStream : Nat → Bool → NewStreamResult α
  alpnSent : Option (List Bytes)
  clientAuthSent : Option (Bytes × Bytes)

/-- rawConnect from the source: encode alpnProtocols; forward the
client-authentication pair only when both certificate and key are present;
call lib.connect with wrappers that apply onClose / onError / onStream with
receiver fullConnection; return the Connection built from the engine handle. -/
def rawConnect (A : Adapter) (opts : ConnectOptions α)
    (hostOpts : StreamOptions α) (hostInit : Bool) : RawConnectResult α :=
  let alpnProtocols := opts.alpnProtocols.map (fun ps => ps.map encodeStr)
  let clientAuthentication : Option (Bytes × Bytes) :=
    match opts.clientAuthentication with
    | some ca =>
      match ca.certificate, ca.key with
      | some cert, some key => some (cert, key)
      | _, _ => none
    | none => none
  let fullConnection : Connection := { connection := { handle := A.connHandle, closed := false } }
  { connection := fullConnection
    wrappedOnClose := fun reason => opts.onClose fullConnection reason
    wrappedOnError := fun e => opts.onError fullConnection e
    newStream := fun raw isUni =>
      handleNewStream A opts fullConnection hostOpts hostInit raw isUni
    alpnSent := alpnProtocols
    clientAuthSent := clientAuthentication }

/-- A fully succeeding adapter used as a concrete scenario. -/
def A0 : Adapter :=
  { connHandle := 7
    newHandle := fun h => h + 100
    freshStreamHandle := fun h => h + 50
    details := fun h => { is0rtt := false, id := h }
    initOk := true
    writeOk := true
    closeOk := true
    closeWriteOk := true }

/-- An adapter whose initialize_stream call throws. -/
def AInitFail : Adapter := { A0 with initOk := false }

/-- An adapter whose close_write call throws. -/
def ACloseWriteFail : Adapter := { A0 with closeWriteOk := false }

/-- Concrete host stream callbacks. -/
def streamOpts0 : StreamOptions Nat :=
  { onData := fun s p => s.stream + p.length
    onClose := fun _ _ => 5
    onError := fun _ _ => 6 }

/-- A second, distinct set of host stream callbacks. -/
def streamOpts1 : StreamOptions Nat :=
  { onData := fun _ _ => 7
    onClose := fun _ _ => 8
    onError := fun _ _ => 9 }

/-- Concrete connect options without client authentication. -/
def connOpts0 : ConnectOptions Nat :=
  { hostname := "example.com"
    port := 443
    onClose := fun _ _ => 1
    onError := fun _ _ => 2
    onStream := fun _ ps => ps.partialStream
    alpnProtocols := none
    certificateAuthorities := none
    clientAuthentication := none }

/-- A concrete open connection. -/
def conn0 : Connection := { connection := { handle := 7, closed := false } }

/-- A concrete uninitialised bidirectional PartialStream. -/
def ps0 : PartialStream := PartialStream.mkJs conn0 3 false

/-- A concrete stream with the write side open. -/
def stream0 : Stream := Stream.mkJs A0 conn0 11 false

/-- A concrete reason string. -/
def reasonBye : String := "bye"

/-- The empty string, named so it can be passed as a close reason. -/
def emptyStr : String := ""

/-- Inversion for a successful initialise call: the flag was unset, the
adapter succeeded, the Stream is the one built from the partial stream's
fields, and the registered dispatcher applies each host callback with the
returned Stream as receiver. -/
theorem initialise_ok_inv (A : Adapter) (ps : PartialStream) (opts : StreamOptions α)
    (s : Stream) (d : StreamDispatcher α)
    (h : (PartialStream.initialise A ps opts).1 = Except.ok (s, d)) :
    ps.initialised = false ∧ A.initOk = true
    ∧ s = Stream.mkJs A ps.connection (A.newHandle ps.partialStream) ps.writeClosed
    ∧ (∀ p, d (StreamEvent.data p) = opts.onData s p)
    ∧ (∀ r, d (StreamEvent.close r) = opts.onClose s r)
    ∧ (∀ e, d (StreamEvent.error e) = opts.onError s e) := by
  by_cases h1 : ps.initialised
  · simp [PartialStream.initialise, h1] at h
  · by_cases h2 : A.initOk
    · simp only [PartialStream.initialise, h1, h2, Bool.false_eq_true, if_false, if_true,
        ite_true, ite_false, Except.ok.injEq, Prod.mk.injEq] at h
      obtain ⟨hs, hd⟩ := h
      subst hs
      subst hd
      refine ⟨by simp [h1], h2, rfl, ?_, ?_, ?_⟩ <;> intro x <;> rfl
    · simp [PartialStream.initialise, h1, h2] at h

/-- C4: Stream.write with a zero-length buffer completes without invoking the
adapter and without error; with a nonzero-length buffer it forwards exactly
that buffer to the adapter's write operation exactly once per call. -/
theorem C4_write_zero_noop_nonzero_forwarded (A : Adapter) (s : Stream) :
    Stream.write A s [] = (Except.ok (), s, [])
    ∧ ∀ b p, (Stream.write A s (b :: p)).2.2
        = [AdapterCall.writeStream s.stream (b :: p)] := by
  constructor
  · rfl
  · intro b p
    simp [Stream.write]

/-- C8: Connection.close forwards errorCode 0 when errorCode is omitted, an
empty (null) reason when reason is omitted or empty, and exactly the raw
UTF-8 bytes of a nonempty reason with nothing added. -/
theorem C8_close_defaults_and_raw_reason (c : Connection) :
    (Connection.close c none none).2
        = [AdapterCall.closeConnection c.connection.handle 0 none]
    ∧ (∀ ec, (Connection.close c (some ec) none).2
        = [AdapterCall.closeConnection c.connection.handle ec none])
    ∧ (∀ ec, (Connection.close c (some ec) (some emptyStr)).2
        = [AdapterCall.closeConnection c.connection.handle ec none])
    ∧ (∀ ec r, 0 < r.length → (Connection.close c (some ec) (some r)).2
        = [AdapterCall.closeConnection c.connection.handle ec (some (encodeStr r))]) := by
  refine ⟨rfl, fun ec => rfl, fun ec => rfl, fun ec r h => ?_⟩
  simp [Connection.close, lib_close_connection, h]

/-- C8 witness: closing with errorCode 2 and reason "bye" transmits exactly
the three UTF-8 bytes of "bye". -/
theorem C8_close_defaults_and_raw_reason_witness :
    (Connection.close conn0 (some 2) (some reasonBye)).2
      = [AdapterCall.closeConnection conn0.connection.handle 2 (some (encodeStr reasonBye))] :=
  (C8_close_defaults_and_raw_reason conn0).2.2.2 2 reasonBye (by decide)

/-- C10: when the adapter's initialize_stream call throws, initialise leaves
the PartialStream unchanged (still uninitialised), produces no Stream, and a
later attempt with a succeeding adapter can still produce one. -/
theorem C10_initialise_failure_keeps_uninitialised (A : Adapter) (ps : PartialStream)
    (opts : StreamOptions α) (h1 : ps.initialised = false) (h2 : A.initOk = false) :
    PartialStream.initialise A ps opts
      = (Except.error engineError, ps, [AdapterCall.initialiseStream ps.partialStream])
    ∧ (PartialStream.initialise A ps opts).2.1.initialised = false
    ∧ (∀ A2 : Adapter, A2.initOk = true →
        ∃ s d, (PartialStream.initialise A2 ps opts).1 = Except.ok (s, d)) := by
  refine ⟨by simp [PartialStream.initialise, h1, h2], ?_, ?_⟩
  · simp [PartialStream.initialise, h1, h2]
  · intro A2 hA2
    simp only [PartialStream.initialise, h1, hA2, Bool.false_eq_true, if_false, if_true,
      ite_true, ite_false]
    exact ⟨_, _, rfl⟩

/-- C10 witness: with a failing adapter, initialising ps0 throws, the state
is unchanged, and retrying with the succeeding adapter produces a Stream. -/
theorem C10_initialise_failure_keeps_uninitialised_witness :
    PartialStream.initialise AInitFail ps0 streamOpts0
      = (Except.error engineError, ps0, [AdapterCall.initialiseStream ps0.partialStream])
    ∧ (PartialStream.initialise AInitFail ps0 streamOpts0).2.1.initialised = false
    ∧ (∀ A2 : Adapter, A2.initOk = true →
        ∃ s d, (PartialStream.initialise A2 ps0 streamOpts0).1 = Except.ok (s, d)) :=
  C10_initialise_failure_keeps_uninitialised AInitFail ps0 streamOpts0 rfl rfl

/-- C2: the first initialise on an uninitialised PartialStream returns a
Stream and marks it initialised; a second initialise on the resulting state
fails with the already-initialised error, makes no adapter call, and creates
no Stream. -/
theorem C2_initialise_succeeds_at_most_once (A : Adapter) (ps : PartialStream)
    (opts opts2 : StreamOptions α) (h1 : ps.initialised = false) (h2 : A.initOk = true) :
    (∃ s d, (PartialStream.initialise A ps opts).1 = Except.ok (s, d))
    ∧ (PartialStream.initialise A ps opts).2.1 = { ps with initialised := true }
    ∧ (PartialStream.initialise A { ps with initialised := true } opts2).1
        = Except.error alreadyInitialisedError
    ∧ (PartialStream.initialise A { ps with initialised := true } opts2).2.1
        = { ps with initialised := true }
    ∧ (PartialStream.initialise A { ps with initialised := true } opts2).2.2 = [] := by
  refine ⟨?_, ?_, ?_, ?_, ?_⟩
  · simp only [PartialStream.initialise, h1, h2, Bool.false_eq_true, if_false, if_true,
      ite_true, ite_false]
    exact ⟨_, _, rfl⟩
  · simp [PartialStream.initialise, h1, h2]
  · simp [PartialStream.initialise]
  · simp [PartialStream.initialise]
  · simp [PartialStream.initialise]

/-- C2 witness: concrete first and second initialise on ps0. -/
theorem C2_initialise_succeeds_at_most_once_witness :
    (∃ s d, (PartialStream.initialise A0 ps0 streamOpts0).1 = Except.ok (s, d))
    ∧ (PartialStream.initialise A0 ps0 streamOpts0).2.1 = { ps0 with initialised := true }
    ∧ (PartialStream.initialise A0 { ps0 with initialised := true } streamOpts1).1
        = Except.error alreadyInitialisedError
    ∧ (PartialStream.initialise A0 { ps0 with initialised := true } streamOpts1).2.1
        = { ps0 with initialised := true }
    ∧ (PartialStream.initialise A0 { ps0 with initialised := true } streamOpts1).2.2 = [] :=
  C2_initialise_succeeds_at_most_once A0 ps0 streamOpts0 streamOpts1 rfl rfl

/-- A concrete stream whose write side is already closed. -/
def stream1 : Stream := Stream.mkJs A0 conn0 11 true

/-- Number of close_write calls in an adapter-call trace. -/
def countCloseWrite (t : List AdapterCall) : Nat :=
  t.countP (fun c => match c with
    | AdapterCall.closeWrite _ => true
    | _ => false)

/-- C1: when the host's onStream handler returns without initialising the
PartialStream, the bridge force-initialises it with the empty no-op callback
triple, closes the resulting stream, and raises the uninitialised-stream
error to the caller of the notification; the result carries no Stream — the
forced Stream exists only in the discarded branch. -/
theorem C1_uninitialised_inbound_auto_closed (A : Adapter) (opts : ConnectOptions α)
    (fc : Connection) (hostOpts : StreamOptions α) (raw : Nat) (isUni : Bool)
    (hA : A.initOk = true) :
    (handleNewStream A opts fc hostOpts false raw isUni).result
        = Except.error uninitialisedStreamError
    ∧ (handleNewStream A opts fc hostOpts false raw isUni).forcedOptions = some noopOptions
    ∧ (handleNewStream A opts fc hostOpts false raw isUni).calls
        = [AdapterCall.initialiseStream raw, AdapterCall.closeStream (A.newHandle raw) 0]
    ∧ (handleNewStream A opts fc hostOpts false raw isUni).forcedStream
        = some (Stream.mkJs A fc (A.newHandle raw) isUni) := by
  refine ⟨?_, ?_, ?_, ?_⟩ <;>
    simp [handleNewStream, PartialStream.mkJs, PartialStream.isInitialised,
      PartialStream.initialise, Stream.close, Stream.mkJs, hA]

/-- C1 witness: a unidirectional inbound stream (engine handle 3) whose
handler does not initialise is auto-closed and the error is raised. -/
theorem C1_uninitialised_inbound_auto_closed_witness :
    (handleNewStream A0 connOpts0 conn0 streamOpts0 false 3 true).result
        = Except.error uninitialisedStreamError
    ∧ (handleNewStream A0 connOpts0 conn0 streamOpts0 false 3 true).forcedOptions
        = some noopOptions
    ∧ (handleNewStream A0 connOpts0 conn0 streamOpts0 false 3 true).calls
        = [AdapterCall.initialiseStream 3, AdapterCall.closeStream (A0.newHandle 3) 0]
    ∧ (handleNewStream A0 connOpts0 conn0 streamOpts0 false 3 true).forcedStream
        = some (Stream.mkJs A0 conn0 (A0.newHandle 3) true) :=
  C1_uninitialised_inbound_auto_closed A0 connOpts0 conn0 streamOpts0 3 true rfl

/-- C5: the write-closed flag is monotone: closeWrite on an already
write-closed stream makes no adapter call; two closeWrite calls (with a
succeeding adapter) perform the half-close at most once; a successful
closeWrite leaves the flag true; no Stream operation resets a true flag; and
a failing adapter half-close leaves the flag false and surfaces the error. -/
theorem C5_write_closed_flag_monotone :
    (∀ (A : Adapter) (s : Stream), s.writeClosed = true →
        Stream.closeWrite A s = (Except.ok (), s, []))
    ∧ (∀ (A : Adapter) (s : Stream), A.closeWriteOk = true →
        countCloseWrite ((Stream.closeWrite A s).2.2
          ++ (Stream.closeWrite A (Stream.closeWrite A s).2.1).2.2) ≤ 1)
    ∧ (∀ (A : Adapter) (s : Stream), (Stream.closeWrite A s).1 = Except.ok () →
        (Stream.closeWrite A s).2.1.writeClosed = true)
    ∧ (∀ (A : Adapter) (s : Stream) (p : Bytes) (ec : Nat), s.writeClosed = true →
        (Stream.write A s p).2.1.writeClosed = true
        ∧ (Stream.close A s ec).2.1.writeClosed = true
        ∧ (Stream.closeWrite A s).2.1.writeClosed = true)
    ∧ (∀ (A : Adapter) (s : Stream), A.closeWriteOk = false → s.writeClosed = false →
        (Stream.closeWrite A s).1 = Except.error engineError
        ∧ (Stream.closeWrite A s).2.1.writeClosed = false) := by
  refine ⟨?_, ?_, ?_, ?_, ?_⟩
  · intro A s h
    simp [Stream.closeWrite, h]
  · intro A s h
    by_cases hw : s.writeClosed <;>
      simp [Stream.closeWrite, countCloseWrite, hw, h, List.countP_cons, List.countP_nil]
  · intro A s h
    by_cases hw : s.writeClosed
    · simp [Stream.closeWrite, hw]
    · by_cases hok : A.closeWriteOk
      · simp [Stream.closeWrite, hw, hok]
      · simp [Stream.closeWrite, hw, hok] at h
  · intro A s p ec h
    refine ⟨?_, ?_, ?_⟩
    · by_cases hp : p.length > 0 <;> simp [Stream.write, hp, h]
    · simp [Stream.close, h]
    · simp [Stream.closeWrite, h]
  · intro A s hok hw
    simp [Stream.closeWrite, hok, hw]

/-- C5 witness: no adapter call on an already-closed write side; at most one
half-close over two calls; a failed half-close leaves the flag false. -/
theorem C5_write_closed_flag_monotone_witness :
    Stream.closeWrite A0 stream1 = (Except.ok (), stream1, [])
    ∧ countCloseWrite ((Stream.closeWrite A0 stream0).2.2
        ++ (Stream.closeWrite A0 (Stream.closeWrite A0 stream0).2.1).2.2) ≤ 1
    ∧ (Stream.closeWrite A0 stream0).2.1.writeClosed = true
    ∧ (Stream.write A0 stream1 [1, 2]).2.1.writeClosed = true
    ∧ (Stream.closeWrite ACloseWriteFail stream0).1 = Except.error engineError
    ∧ (Stream.closeWrite ACloseWriteFail stream0).2.1.writeClosed = false :=
  ⟨C5_write_closed_flag_monotone.1 A0 stream1 rfl,
    C5_write_closed_flag_monotone.2.1 A0 stream0 rfl,
    C5_write_closed_flag_monotone.2.2.1 A0 stream0 rfl,
    (C5_write_closed_flag_monotone.2.2.2.1 A0 stream1 [1, 2] 0 rfl).1,
    (C5_write_closed_flag_monotone.2.2.2.2 ACloseWriteFail stream0 rfl rfl).1,
    (C5_write_closed_flag_monotone.2.2.2.2 ACloseWriteFail stream0 rfl rfl).2⟩

/-- C6: the PartialStream and Stream constructors fix writeIsClosed to the
directionality flag, initialise propagates the flag unchanged into the
Stream it produces, and a stream created via Connection.createStream has
writeIsClosed false at construction. -/
theorem C6_directionality_fixed_at_construction (α : Type) :
    (∀ (c : Connection) (raw : Nat) (isUni : Bool),
        (PartialStream.mkJs c raw isUni).writeIsClosed = isUni)
    ∧ (∀ (A : Adapter) (c : Connection) (h : Nat) (isUni : Bool),
        (Stream.mkJs A c h isUni).writeIsClosed = isUni)
    ∧ (∀ (A : Adapter) (ps : PartialStream) (opts : StreamOptions α) (s : Stream)
        (d : StreamDispatcher α),
        (PartialStream.initialise A ps opts).1 = Except.ok (s, d) →
          s.writeIsClosed = ps.writeIsClosed)
    ∧ (∀ (A : Adapter) (c : Connection) (opts : StreamOptions α) (s : Stream)
        (d : StreamDispatcher α),
        (Connection.createStream A c opts).1 = Except.ok (s, d) →
          s.writeIsClosed = false) := by
  refine ⟨fun c raw isUni => rfl, fun A c h isUni => rfl, ?_, ?_⟩
  · intro A ps opts s d h
    obtain ⟨-, -, hs, -⟩ := initialise_ok_inv A ps opts s d h
    rw [hs]
    rfl
  · intro A c opts s d h
    unfold Connection.createStream at h
    rcases hcs : lib_create_stream A c.connection with e | ph <;> rw [hcs] at h
    · simp at h
    · dsimp only at h
      obtain ⟨-, -, hs, -⟩ := initialise_ok_inv A (PartialStream.mkJs c ph false) opts s d h
      rw [hs]
      rfl

/-- C6 witness: a unidirectional inbound PartialStream and its Stream have
writeIsClosed true at construction; the Stream initialise produces from the
unidirectional PartialStream inherits the flag; a stream obtained from
createStream has it false. -/
theorem C6_directionality_fixed_at_construction_witness :
    (PartialStream.mkJs conn0 3 true).writeIsClosed = true
    ∧ (Stream.mkJs A0 conn0 11 true).writeIsClosed = true
    ∧ (Stream.mkJs A0 conn0 (A0.newHandle 3) true).writeIsClosed
        = (PartialStream.mkJs conn0 3 true).writeIsClosed
    ∧ (Stream.mkJs A0 conn0
          (A0.newHandle (A0.freshStreamHandle conn0.connection.handle))
          false).writeIsClosed = false :=
  ⟨(C6_directionality_fixed_at_construction Nat).1 conn0 3 true,
    (C6_directionality_fixed_at_construction Nat).2.1 A0 conn0 11 true,
    (C6_directionality_fixed_at_construction Nat).2.2.1 A0
      (PartialStream.mkJs conn0 3 true) streamOpts0 _ _ (by rfl),
    (C6_directionality_fixed_at_construction Nat).2.2.2 A0 conn0 streamOpts0 _ _ (by rfl)⟩

/-- C7: after Connection.close resolves, createStream on the closed
connection fails with the ConnectionClosed error instead of returning a
Stream. -/
theorem C7_create_stream_after_close_rejected (A : Adapter) (c : Connection)
    (ec : Option Nat) (reason : Option String) (opts : StreamOptions α) :
    (Connection.createStream A (Connection.close c ec reason).1 opts).1
      = Except.error connectionClosedError := by
  simp [Connection.createStream, Connection.close, lib_close_connection, lib_create_stream]

/-- Connect options whose client authentication carries only a certificate. -/
def connOptsCertOnly : ConnectOptions Nat :=
  { connOpts0 with clientAuthentication := some { certificate := some [1, 2], key := none } }

/-- Connect options whose client authentication carries both certificate and
key. -/
def connOptsBoth : ConnectOptions Nat :=
  { connOpts0 with clientAuthentication := some { certificate := some [1, 2], key := some [3] } }

/-- C9: rawConnect forwards the client-authentication identity to the adapter
exactly when both the certificate bytes and the key bytes are supplied; a
lone certificate or lone key is never forwarded as a partial pair. -/
theorem C9_client_auth_both_or_nothing (A : Adapter) (opts : ConnectOptions α)
    (hostOpts : StreamOptions α) (hostInit : Bool) :
    (∀ cert key,
        opts.clientAuthentication = some { certificate := some cert, key := some key } →
        (rawConnect A opts hostOpts hostInit).clientAuthSent = some (cert, key))
    ∧ (opts.clientAuthentication = none →
        (rawConnect A opts hostOpts hostInit).clientAuthSent = none)
    ∧ (∀ ca, opts.clientAuthentication = some ca →
        ca.certificate = none ∨ ca.key = none →
        (rawConnect A opts hostOpts hostInit).clientAuthSent = none) := by
  refine ⟨?_, ?_, ?_⟩
  · intro cert key h
    simp [rawConnect, h]
  · intro h
    simp [rawConnect, h]
  · rintro ⟨cc, ck⟩ h hck
    rcases hck with hc | hk
    · simp only at hc
      subst hc
      simp [rawConnect, h]
    · simp only at hk
      subst hk
      rcases cc with _ | c <;> simp [rawConnect, h]

/-- C9 witness: a certificate without a key is not forwarded; the full pair
is forwarded as-is. -/
theorem C9_client_auth_both_or_nothing_witness :
    (rawConnect A0 connOptsCertOnly streamOpts0 false).clientAuthSent = none
    ∧ (rawConnect A0 connOptsBoth streamOpts0 false).clientAuthSent = some ([1, 2], [3]) :=
  ⟨(C9_client_auth_both_or_nothing A0 connOptsCertOnly streamOpts0 false).2.2
      { certificate := some [1, 2], key := none } rfl (Or.inr rfl),
    (C9_client_auth_both_or_nothing A0 connOptsBoth streamOpts0 false).1 [1, 2] [3] rfl⟩

/-- The inbound-stream notification invokes the host's onStream with the
receiver bound to the given full connection, in every branch. -/
theorem handleNewStream_hostNotified (A : Adapter) (opts : ConnectOptions α)
    (fc : Connection) (hostOpts : StreamOptions α) (hostInit : Bool)
    (raw : Nat) (isUni : Bool) :
    (handleNewStream A opts fc hostOpts hostInit raw isUni).hostNotified
      = opts.onStream fc (PartialStream.mkJs fc raw isUni) := by
  unfold handleNewStream
  cases hostInit <;> dsimp only <;> repeat' (first | rfl | split)

/-- C3: every stream-level callback wrapper registered by initialise applies
the host callback with the receiver bound to the exact Stream returned, and
every connection-level wrapper registered by rawConnect applies the host
callback with the receiver bound to the exact Connection returned. -/
theorem C3_callbacks_receiver_bound (α : Type) :
    (∀ (A : Adapter) (ps : PartialStream) (opts : StreamOptions α) (s : Stream)
        (d : StreamDispatcher α),
        (PartialStream.initialise A ps opts).1 = Except.ok (s, d) →
          (∀ p, d (StreamEvent.data p) = opts.onData s p)
          ∧ (∀ r, d (StreamEvent.close r) = opts.onClose s r)
          ∧ (∀ e, d (StreamEvent.error e) = opts.onError s e))
    ∧ (∀ (A : Adapter) (copts : ConnectOptions α) (hostOpts : StreamOptions α)
        (hostInit : Bool),
        (∀ r, (rawConnect A copts hostOpts hostInit).wrappedOnClose r
            = copts.onClose (rawConnect A copts hostOpts hostInit).connection r)
        ∧ (∀ e, (rawConnect A copts hostOpts hostInit).wrappedOnError e
            = copts.onError (rawConnect A copts hostOpts hostInit).connection e)
        ∧ (∀ raw isUni,
            ((rawConnect A copts hostOpts hostInit).newStream raw isUni).hostNotified
              = copts.onStream (rawConnect A copts hostOpts hostInit).connection
                  (PartialStream.mkJs
                    (rawConnect A copts hostOpts hostInit).connection raw isUni))) := by
  constructor
  · intro A ps opts s d h
    obtain ⟨-, -, -, h4, h5, h6⟩ := initialise_ok_inv A ps opts s d h
    exact ⟨h4, h5, h6⟩
  · intro A copts hostOpts hostInit
    refine ⟨fun r => rfl, fun e => rfl, fun raw isUni => ?_⟩
    exact handleNewStream_hostNotified A copts _ hostOpts hostInit raw isUni

/-- C3 witness: concrete receiver-binding checks for the stream callbacks of
an initialised stream and the connection callbacks of a raw connection. -/
theorem C3_callbacks_receiver_bound_witness :
    ((∀ p, (fun ev =>
        match ev with
        | StreamEvent.data q =>
          streamOpts0.onData (Stream.mkJs A0 conn0 (A0.newHandle 3) false) q
        | StreamEvent.close r =>
          streamOpts0.onClose (Stream.mkJs A0 conn0 (A0.newHandle 3) false) r
        | StreamEvent.error e =>
          streamOpts0.onError (Stream.mkJs A0 conn0 (A0.newHandle 3) false) e)
          (StreamEvent.data p)
        = streamOpts0.onData (Stream.mkJs A0 conn0 (A0.newHandle 3) false) p)
      ∧ (∀ r, (fun ev =>
        match ev with
        | StreamEvent.data q =>
          streamOpts0.onData (Stream.mkJs A0 conn0 (A0.newHandle 3) false) q
        | StreamEvent.close r =>
          streamOpts0.onClose (Stream.mkJs A0 conn0 (A0.newHandle 3) false) r
        | StreamEvent.error e =>
          streamOpts0.onError (Stream.mkJs A0 conn0 (A0.newHandle 3) false) e)
          (StreamEvent.close r)
        = streamOpts0.onClose (Stream.mkJs A0 conn0 (A0.newHandle 3) false) r)
      ∧ (∀ e, (fun ev =>
        match ev with
        | StreamEvent.data q =>
          streamOpts0.onData (Stream.mkJs A0 conn0 (A0.newHandle 3) false) q
        | StreamEvent.close r =>
          streamOpts0.onClose (Stream.mkJs A0 conn0 (A0.newHandle 3) false) r
        | StreamEvent.error e =>
          streamOpts0.onError (Stream.mkJs A0 conn0 (A0.newHandle 3) false) e)
          (StreamEvent.error e)
        = streamOpts0.onError (Stream.mkJs A0 conn0 (A0.newHandle 3) false) e))
    ∧ (∀ r, (rawConnect A0 connOpts0 streamOpts0 false).wrappedOnClose r
        = connOpts0.onClose (rawConnect A0 connOpts0 streamOpts0 false).connection r) :=
  ⟨(C3_callbacks_receiver_bound Nat).1 A0 ps0 streamOpts0 _ _ (by rfl),
    ((C3_callbacks_receiver_bound Nat).2 A0 connOpts0 streamOpts0 false).1⟩

end NodeQuic
